import Mathlib

/-!
# Tor process supervisor (`components/tor/tor_launcher_factory.cc`)

A shallow embedding of `TorLauncherFactory`: the member variables become one
record, every member function becomes a function from the record to the new
record together with the list of calls it makes on its collaborators (the
launcher service, the control client, the file watcher, the task runner, the
observers and the log).  A `std::string` is a list of characters, one list
element per `char`; `size_t` values are natural numbers reduced modulo `2^64`
where the source does arithmetic on them.

Observers are passive: a notification is recorded, the observer does not call
back into the supervisor while it is being notified.
-/

namespace Tor

/-- A `std::string` / `base::FilePath`, one element per `char`. -/
abbrev Str := List Char

/-! ## `std::string` operations used by the source -/

/-- The value of `std::string::npos` for a 64-bit `size_t`. -/
def npos : Nat := 2 ^ 64 - 1

/-- Faults that end the hosting process. -/
inductive Fault where
  /-- a `DCHECK` failed in a build where `DCHECK`s are compiled in -/
  | dcheck
  /-- `std::string::substr` called with `pos > size()` -/
  | out_of_range
  /-- `operator[]` on a `std::vector` outside its size -/
  | index_out_of_bounds
  /-- `->` or `*` on an empty `std::unique_ptr` -/
  | null_deref
  deriving DecidableEq, Repr

/-- Search of `std::string::find(pat)`: `i` is the index of the first character
of the remaining text; the result is the index of the first match, `npos`
when there is none. -/
def findFrom (pat : Str) : Str → Nat → Nat
  | [], i => if pat = [] then i else npos
  | c :: cs, i => if pat.isPrefixOf (c :: cs) then i else findFrom pat cs (i + 1)

/-- The call `s.find(pat)`. -/
def find (s pat : Str) : Nat := findFrom pat s 0

/-- The call `s.substr(pos, count)`: fails when `pos > s.size()`, otherwise the
characters `[pos, min(pos + count, size()))`. -/
def substr (s : Str) (pos count : Nat) : Except Fault Str :=
  if pos > s.length then Except.error Fault.out_of_range
  else Except.ok ((s.drop pos).take count)

/-- The erase-remove idiom `s.erase(std::remove(s.begin(), s.end(), ch), s.end())`. -/
def eraseRemove (s : Str) (ch : Char) : Str :=
  s.filter (fun c => c != ch)

/-! ## Constants of the anonymous namespace -/

/-- The double-quote character. -/
def quoteChar : Char := Char.ofNat 34

/-- The space character. -/
def spaceChar : Char := Char.ofNat 32

def kTorProxyScheme : Str := "socks5://".toList
def kStatusClientBootstrap : Str := "BOOTSTRAP".toList
def kStatusClientBootstrapProgress : Str := "PROGRESS=".toList
def kStatusClientCircuitEstablished : Str := "CIRCUIT_ESTABLISHED".toList
def kStatusClientCircuitNotEstablished : Str := "CIRCUIT_NOT_ESTABLISHED".toList

/-- The C function `strlen` on a constant. -/
def strlen (s : Str) : Nat := s.length

/-! ## Data model -/

/-- The record `tor::mojom::TorConfig`. -/
structure TorConfig where
  binary_path : Str
  tor_data_path : Str
  tor_watch_path : Str
  deriving DecidableEq, Repr

/-- Modelled from the spec: the four event classes of `tor::TorControlEvent`
that the supervisor subscribes to (the header that declares the enumeration is
not among the sources). -/
inductive TorControlEvent where
  | NETWORK_LIVENESS
  | STATUS_CLIENT
  | STATUS_GENERAL
  | STREAM
  deriving DecidableEq, Repr

/-- Modelled from the spec: the lifecycle phase of the Control Client
(`tor::TorControl`, whose source is not among the sources).  `Stop()` is
valid from any state and moves to `Closed`; `Start(cookie, port)` is valid only
from `Disconnected`. -/
inductive TorControl where
  | Disconnected
  | Started (cookie : List Nat) (port : Int)
  | Closed
  deriving DecidableEq, Repr

/-- Modelled from the spec: `Stop()` of the Control Client. -/
def TorControl.Stop (_ : TorControl) : TorControl := TorControl.Closed

/-- Modelled from the spec: `Start(cookie, port)` of the Control Client. -/
def TorControl.Start (c : TorControl) (cookie : List Nat) (port : Int) : TorControl :=
  match c with
  | TorControl.Disconnected => TorControl.Started cookie port
  | other => other

/-- The object behind `tor_file_watcher_`: a watcher over one directory. -/
structure TorFileWatcher where
  watch_path : Str
  deriving DecidableEq, Repr

/-- The calls of `TorLauncherObserver`. -/
inductive ObserverCall where
  | OnTorLauncherCrashed
  | OnTorCrashed (pid : Int)
  | OnTorLaunched (result : Bool) (pid : Int)
  | OnTorNewProxyURI (uri : Str)
  | OnTorInitializing (percentage : Str)
  | OnTorCircuitEstablished (result : Bool)
  | OnTorControlEvent (event : Str)
  deriving DecidableEq, Repr

/-- Lines written with `LOG(WARNING)`, `LOG(ERROR)` and `LOG(INFO)`. -/
inductive LogLine where
  | AlreadyStarting
  | AlreadyRunning (pid : Int)
  | LaunchingFailed (pid : Int)
  | LauncherCrashed
  | ProcessCrashed (pid : Int)
  deriving DecidableEq, Repr

/-- Tasks the supervisor posts to the UI thread. -/
inductive Task where
  | RelaunchTor
  deriving DecidableEq, Repr

/-- Calls the supervisor makes on its collaborators, in program order. -/
inductive Effect where
  /-- one observer of `observers_` receives one call -/
  | Notify (observer : Nat) (call : ObserverCall)
  /-- `ServiceProcessHost::Launch` of the launcher service, in `Init` -/
  | ServiceLaunch
  /-- the call `tor_launcher_->Launch(config, OnTorLaunched)` -/
  | Launch (config : TorConfig)
  /-- the call `tor_launcher_->Shutdown()` -/
  | Shutdown
  /-- `std::make_unique<tor::TorFileWatcher>(path)` -/
  | CreateWatcher (path : Str)
  /-- `tor_file_watcher_->StartWatching(...)`, callback bound to `pid` -/
  | StartWatching (pid : Int)
  /-- `DeleteSoon` on the released watcher -/
  | WatcherDeleteSoon
  | ControlStart (cookie : List Nat) (port : Int)
  | ControlStop
  | ControlGetVersion
  | ControlGetSOCKSListeners
  | ControlSubscribe (event : TorControlEvent)
  /-- `PostDelayedTask(task, TimeDelta::FromSeconds(seconds))` -/
  | PostDelayedTask (task : Task) (seconds : Nat)
  | Log (line : LogLine)
  deriving DecidableEq, Repr

/-- The member variables of `TorLauncherFactory`. -/
structure TorLauncherFactory where
  is_starting_ : Bool
  is_connected_ : Bool
  tor_pid_ : Int
  tor_proxy_uri_ : Str
  tor_version_ : Str
  config_ : TorConfig
  /-- whether `tor_launcher_` is bound (`tor_launcher_.is_bound()`) -/
  tor_launcher_bound : Bool
  tor_file_watcher_ : Option TorFileWatcher
  control_ : TorControl
  /-- the registered observers, in registration order -/
  observers_ : List Nat
  deriving DecidableEq, Repr

/-- A member function that ran to its end: the new record and the calls made. -/
structure Step where
  st : TorLauncherFactory
  fx : List Effect
  deriving DecidableEq, Repr

/-- A member function that may end the process: on a fault, the fault together
with the record and the calls made up to that point. -/
abbrev Outcome := Except (Fault × Step) Step

/-- The loop `for (auto& observer : observers_) observer.call`. -/
def notifyAll (s : TorLauncherFactory) (call : ObserverCall) : List Effect :=
  s.observers_.map (fun o => Effect.Notify o call)

/-! ## Member functions -/

/-- The constructor `TorLauncherFactory::TorLauncherFactory()`; the
configuration starts out with empty paths. -/
def TorLauncherFactory.new : TorLauncherFactory :=
  { is_starting_ := false, is_connected_ := false, tor_pid_ := -1,
    tor_proxy_uri_ := [], tor_version_ := [],
    config_ := { binary_path := [], tor_data_path := [], tor_watch_path := [] },
    tor_launcher_bound := false, tor_file_watcher_ := none,
    control_ := TorControl.Disconnected, observers_ := [] }

/-- `TorLauncherFactory::AddObserver`. -/
def AddObserver (s : TorLauncherFactory) (observer : Nat) : TorLauncherFactory :=
  { s with observers_ := s.observers_ ++ [observer] }

/-- `TorLauncherFactory::RemoveObserver`. -/
def RemoveObserver (s : TorLauncherFactory) (observer : Nat) : TorLauncherFactory :=
  { s with observers_ := s.observers_.filter (fun o => o != observer) }

/-- `TorLauncherFactory::Init`.  `binds` tells whether
`tor_launcher_.BindNewPipeAndPassReceiver()` leaves the remote bound. -/
def Init (binds : Bool) (s : TorLauncherFactory) : Step :=
  { st := { s with tor_launcher_bound := binds }, fx := [Effect.ServiceLaunch] }

/-- `TorLauncherFactory::LaunchTorInternal`. -/
def LaunchTorInternal (s : TorLauncherFactory) : Step :=
  let s1 := { s with tor_file_watcher_ := some { watch_path := s.config_.tor_watch_path } }
  let fx1 := [Effect.CreateWatcher s.config_.tor_watch_path]
  if s1.tor_launcher_bound then
    { st := s1, fx := fx1 ++ [Effect.Launch s1.config_] }
  else
    { st := { s1 with is_starting_ := false }, fx := fx1 }

/-- The macro `DCHECK(cond)`: the process dies when the check is compiled in and
the condition is false; otherwise nothing happens. -/
def dcheckFails (dcheck_is_on cond : Bool) : Bool := dcheck_is_on && !cond

/-- `TorLauncherFactory::LaunchTorProcess`.  `dcheck_is_on` tells whether the
build compiles `DCHECK`s in. -/
def LaunchTorProcess (dcheck_is_on binds : Bool) (s : TorLauncherFactory)
    (config : TorConfig) : Outcome :=
  if s.is_starting_ then
    Except.ok { st := s, fx := [Effect.Log LogLine.AlreadyStarting] }
  else
    let s1 := { s with is_starting_ := true }
    if 0 ≤ s1.tor_pid_ then
      Except.ok { st := s1, fx := [Effect.Log (LogLine.AlreadyRunning s1.tor_pid_)] }
    else if dcheckFails dcheck_is_on (!config.binary_path.isEmpty) then
      Except.error (Fault.dcheck, { st := s1, fx := [] })
    else if dcheckFails dcheck_is_on (!config.tor_data_path.isEmpty) then
      Except.error (Fault.dcheck, { st := s1, fx := [] })
    else if dcheckFails dcheck_is_on (!config.tor_watch_path.isEmpty) then
      Except.error (Fault.dcheck, { st := s1, fx := [] })
    else
      let s2 := { s1 with config_ := config }
      let r := if s2.tor_launcher_bound then { st := s2, fx := [] } else Init binds s2
      let r2 := LaunchTorInternal r.st
      Except.ok { st := r2.st, fx := r.fx ++ r2.fx }

/-- `TorLauncherFactory::KillTorProcess`. -/
def KillTorProcess (s : TorLauncherFactory) : Step :=
  let fx1 := if s.tor_launcher_bound then [Effect.Shutdown] else []
  { st := { s with control_ := s.control_.Stop, tor_launcher_bound := false,
                   tor_pid_ := -1, is_connected_ := false },
    fx := fx1 ++ [Effect.ControlStop] }

/-- `TorLauncherFactory::GetTorPid`. -/
def GetTorPid (s : TorLauncherFactory) : Int := s.tor_pid_

/-- `TorLauncherFactory::IsTorConnected`. -/
def IsTorConnected (s : TorLauncherFactory) : Bool := s.is_connected_

/-- `TorLauncherFactory::GetTorProxyURI`. -/
def GetTorProxyURI (s : TorLauncherFactory) : Str := s.tor_proxy_uri_

/-- `TorLauncherFactory::GetTorVersion`. -/
def GetTorVersion (s : TorLauncherFactory) : Str := s.tor_version_

/-- `TorLauncherFactory::DelayedRelaunchTor`. -/
def DelayedRelaunchTor (s : TorLauncherFactory) : Step :=
  let r := KillTorProcess { s with is_starting_ := false, is_connected_ := false }
  { st := r.st, fx := r.fx ++ [Effect.PostDelayedTask Task.RelaunchTor 1] }

/-- `TorLauncherFactory::RelaunchTor`. -/
def RelaunchTor (binds : Bool) (s : TorLauncherFactory) : Step :=
  let r := Init binds s
  let r2 := LaunchTorInternal r.st
  { st := r2.st, fx := r.fx ++ r2.fx }

/-- `TorLauncherFactory::OnTorLauncherCrashed`. -/
def OnTorLauncherCrashed (s : TorLauncherFactory) : Step :=
  let fx1 := Effect.Log LogLine.LauncherCrashed :: notifyAll s ObserverCall.OnTorLauncherCrashed
  let r := DelayedRelaunchTor s
  { st := r.st, fx := fx1 ++ r.fx }

/-- `TorLauncherFactory::OnTorCrashed`. -/
def OnTorCrashed (s : TorLauncherFactory) (pid : Int) : Step :=
  let fx1 := Effect.Log (LogLine.ProcessCrashed pid) :: notifyAll s (ObserverCall.OnTorCrashed pid)
  let r := DelayedRelaunchTor s
  { st := r.st, fx := fx1 ++ r.fx }

/-- `TorLauncherFactory::OnTorLaunched`. -/
def OnTorLaunched (s : TorLauncherFactory) (result : Bool) (pid : Int) : Outcome :=
  let fx1 := notifyAll s (ObserverCall.OnTorLaunched result pid)
  if result then
    let s1 := { s with is_starting_ := false, is_connected_ := false, tor_pid_ := pid }
    match s1.tor_file_watcher_ with
    | none => Except.error (Fault.null_deref, { st := s1, fx := fx1 })
    | some _ => Except.ok { st := s1, fx := fx1 ++ [Effect.StartWatching pid] }
  else
    Except.ok { st := s, fx := fx1 ++ [Effect.Log (LogLine.LaunchingFailed pid)] }

/-- `TorLauncherFactory::OnTorControlReady`. -/
def OnTorControlReady (s : TorLauncherFactory) : Step :=
  { st := s,
    fx := [Effect.ControlGetVersion, Effect.ControlGetSOCKSListeners,
           Effect.ControlSubscribe TorControlEvent.NETWORK_LIVENESS,
           Effect.ControlSubscribe TorControlEvent.STATUS_CLIENT,
           Effect.ControlSubscribe TorControlEvent.STATUS_GENERAL,
           Effect.ControlSubscribe TorControlEvent.STREAM] }

/-- `TorLauncherFactory::GotVersion`. -/
def GotVersion (s : TorLauncherFactory) (error : Bool) (version : Str) : Step :=
  if error then { st := s, fx := [] }
  else { st := { s with tor_version_ := version }, fx := [] }

/-- `TorLauncherFactory::GotSOCKSListeners`. -/
def GotSOCKSListeners (s : TorLauncherFactory) (error : Bool) (listeners : List Str) : Outcome :=
  if error then Except.ok { st := s, fx := [] }
  else
    match listeners[0]? with
    | none => Except.error (Fault.index_out_of_bounds, { st := s, fx := [] })
    | some first =>
      let tor_proxy_uri := eraseRemove (kTorProxyScheme ++ first) quoteChar
      let s1 := { s with tor_proxy_uri_ := tor_proxy_uri }
      Except.ok { st := s1, fx := notifyAll s1 (ObserverCall.OnTorNewProxyURI tor_proxy_uri) }

/-- `TorLauncherFactory::OnTorControlClosed`. -/
def OnTorControlClosed (s : TorLauncherFactory) (was_running : Bool) : Step :=
  if was_running then LaunchTorInternal s else { st := s, fx := [] }

/-- `TorLauncherFactory::OnTorControlPrerequisitesReady`. -/
def OnTorControlPrerequisitesReady (s : TorLauncherFactory) (pid : Int) (ready : Bool)
    (cookie : List Nat) (port : Int) : Outcome :=
  if pid ≠ s.tor_pid_ then Except.ok { st := s, fx := [] }
  else if ready then
    let s1 := { s with control_ := s.control_.Start cookie port }
    let fx1 := [Effect.ControlStart cookie port]
    match s1.tor_file_watcher_ with
    | none => Except.error (Fault.null_deref, { st := s1, fx := fx1 })
    | some _ =>
      Except.ok { st := { s1 with tor_file_watcher_ := none },
                  fx := fx1 ++ [Effect.WatcherDeleteSoon] }
  else
    match s.tor_file_watcher_ with
    | none => Except.error (Fault.null_deref, { st := s, fx := [] })
    | some _ => Except.ok { st := s, fx := [Effect.StartWatching pid] }

/-- `TorLauncherFactory::OnTorEvent`.  `kTorControlEventByEnum` is the table of
event names; `extra` is not read by the function. -/
def OnTorEvent (kTorControlEventByEnum : TorControlEvent → Str) (s : TorLauncherFactory)
    (event : TorControlEvent) (initial : Str) (_extra : List (Str × Str)) : Outcome :=
  let raw_event := kTorControlEventByEnum event ++ ": ".toList ++ initial
  let fx1 := notifyAll s (ObserverCall.OnTorControlEvent raw_event)
  if event = TorControlEvent.STATUS_CLIENT then
    if find initial kStatusClientBootstrap ≠ npos then
      let progress_start := find initial kStatusClientBootstrapProgress
      match substr initial progress_start npos with
      | Except.error f => Except.error (f, { st := s, fx := fx1 })
      | Except.ok rest =>
        let progress_length := find rest [spaceChar]
        match substr initial
            ((progress_start + strlen kStatusClientBootstrapProgress) % 2 ^ 64)
            ((progress_length + 2 ^ 64 - strlen kStatusClientBootstrapProgress) % 2 ^ 64) with
        | Except.error f => Except.error (f, { st := s, fx := fx1 })
        | Except.ok percentage =>
          Except.ok { st := s,
                      fx := fx1 ++ notifyAll s (ObserverCall.OnTorInitializing percentage) }
    else if find initial kStatusClientCircuitEstablished ≠ npos then
      Except.ok { st := { s with is_connected_ := true },
                  fx := fx1 ++ notifyAll s (ObserverCall.OnTorCircuitEstablished true) }
    else if find initial kStatusClientCircuitNotEstablished ≠ npos then
      Except.ok { st := s,
                  fx := fx1 ++ notifyAll s (ObserverCall.OnTorCircuitEstablished false) }
    else Except.ok { st := s, fx := fx1 }
  else Except.ok { st := s, fx := fx1 }

/-! ## Reading a trace -/

/-- The configurations of the launch requests in a trace, in order. -/
def launchRequests (fx : List Effect) : List TorConfig :=
  fx.filterMap (fun e => match e with
    | Effect.Launch c => some c
    | _ => none)

/-- The delayed tasks posted in a trace, with their delay in seconds. -/
def delayedTasks (fx : List Effect) : List (Task × Nat) :=
  fx.filterMap (fun e => match e with
    | Effect.PostDelayedTask t d => some (t, d)
    | _ => none)

/-- The watchers created in a trace, by directory. -/
def createdWatchers (fx : List Effect) : List Str :=
  fx.filterMap (fun e => match e with
    | Effect.CreateWatcher p => some p
    | _ => none)

/-- The observer notifications in a trace, in order. -/
def notifications (fx : List Effect) : List (Nat × ObserverCall) :=
  fx.filterMap (fun e => match e with
    | Effect.Notify o c => some (o, c)
    | _ => none)

/-- A concrete configuration with three non-empty paths. -/
def sampleConfig : TorConfig :=
  { binary_path := "/opt/tor".toList, tor_data_path := "/data".toList,
    tor_watch_path := "/watch".toList }

/-- A supervisor with one observer and a bound launcher, nothing started. -/
def idleSupervisor : TorLauncherFactory :=
  { TorLauncherFactory.new with tor_launcher_bound := true, observers_ := [7],
                                config_ := sampleConfig }

/-- A supervisor whose daemon runs as process 42 with a circuit established. -/
def runningSupervisor : TorLauncherFactory :=
  { idleSupervisor with tor_pid_ := 42, is_connected_ := true,
                        control_ := TorControl.Started [] 9051,
                        tor_proxy_uri_ := "socks5://127.0.0.1:9050".toList }

/-- A configuration whose executable path is empty. -/
def emptyBinaryConfig : TorConfig :=
  { binary_path := [], tor_data_path := "/data".toList, tor_watch_path := "/watch".toList }

/-- The circuit-lost line of a `STATUS_CLIENT` event. -/
def circuitLostLine : Str := "NOTICE CIRCUIT_NOT_ESTABLISHED REASON=CLOCK_JUMPED".toList

/-- The table of event names, as the control protocol spells them. -/
def eventNames : TorControlEvent → Str
  | TorControlEvent.NETWORK_LIVENESS => "NETWORK_LIVENESS".toList
  | TorControlEvent.STATUS_CLIENT => "STATUS_CLIENT".toList
  | TorControlEvent.STATUS_GENERAL => "STATUS_GENERAL".toList
  | TorControlEvent.STREAM => "STREAM".toList

/-! ## Operations as data -/

/-- The entry points of the supervisor named in the connectivity invariant, with
their arguments. -/
inductive Op where
  | LaunchTorProcess (dcheck_is_on binds : Bool) (config : TorConfig)
  | KillTorProcess
  | OnTorLaunched (result : Bool) (pid : Int)
  | OnTorCrashed (pid : Int)
  | OnTorLauncherCrashed
  | OnTorControlReady
  | GotVersion (error : Bool) (version : Str)
  | GotSOCKSListeners (error : Bool) (listeners : List Str)
  | OnTorControlClosed (was_running : Bool)
  | OnTorControlPrerequisitesReady (pid : Int) (ready : Bool) (cookie : List Nat) (port : Int)
  | RelaunchTor (binds : Bool)
  | OnTorEvent (event : TorControlEvent) (initial : Str) (extra : List (Str × Str))
  deriving DecidableEq, Repr

/-- Runs one entry point on a record. -/
def Op.run (names : TorControlEvent → Str) (s : TorLauncherFactory) : Op → Outcome
  | Op.LaunchTorProcess d b config => Tor.LaunchTorProcess d b s config
  | Op.KillTorProcess => Except.ok (Tor.KillTorProcess s)
  | Op.OnTorLaunched result pid => Tor.OnTorLaunched s result pid
  | Op.OnTorCrashed pid => Except.ok (Tor.OnTorCrashed s pid)
  | Op.OnTorLauncherCrashed => Except.ok (Tor.OnTorLauncherCrashed s)
  | Op.OnTorControlReady => Except.ok (Tor.OnTorControlReady s)
  | Op.GotVersion error version => Except.ok (Tor.GotVersion s error version)
  | Op.GotSOCKSListeners error listeners => Tor.GotSOCKSListeners s error listeners
  | Op.OnTorControlClosed was_running => Except.ok (Tor.OnTorControlClosed s was_running)
  | Op.OnTorControlPrerequisitesReady pid ready cookie port =>
    Tor.OnTorControlPrerequisitesReady s pid ready cookie port
  | Op.RelaunchTor b => Except.ok (Tor.RelaunchTor b s)
  | Op.OnTorEvent event initial extra => Tor.OnTorEvent names s event initial extra

/-- The record a member function leaves behind: the new record when it ran to
its end, the record at the point of the fault when it did not. -/
def lastState : Outcome → TorLauncherFactory
  | Except.ok r => r.st
  | Except.error (_, r) => r.st

/-- The calls a member function made, up to its end or up to the fault. -/
def callsMade : Outcome → List Effect
  | Except.ok r => r.fx
  | Except.error (_, r) => r.fx

/-- The one event that reports an established circuit: class `STATUS_CLIENT`, a
line that contains `CIRCUIT_ESTABLISHED` and does not contain `BOOTSTRAP`. -/
def Op.isCircuitEstablishedEvent : Op → Prop
  | Op.OnTorEvent event initial _ =>
    event = TorControlEvent.STATUS_CLIENT ∧ kStatusClientCircuitEstablished <:+: initial ∧
      ¬ kStatusClientBootstrap <:+: initial
  | _ => False

/-- Every `std::string` argument is shorter than `2^64` characters. -/
def Op.stringsFit : Op → Prop
  | Op.OnTorEvent _ initial _ => initial.length < 2 ^ 64
  | _ => True

/-! ## Handshake files -/

/-- Modelled from the spec: what the watcher finds under the name of a handshake
artifact in the watch directory: nothing, a directory, or a regular file with
its content (`tor_file_watcher.cc` is not among the sources). -/
inductive FileEntry (α : Type) where
  | missing
  | directory
  | regular (content : α)
  deriving DecidableEq, Repr

/-- The outputs of `EatControlCookie`: the return value and the two reference
parameters after the call. -/
structure CookieResult where
  ready : Bool
  cookie : List Nat
  time : Nat
  deriving DecidableEq, Repr

/-- The outputs of `EatControlPort`: the return value and the two reference
parameters after the call. -/
structure PortResult where
  ready : Bool
  port : Int
  time : Nat
  deriving DecidableEq, Repr

/-- Modelled from the spec: cookie extraction of the Handshake Watcher
(`TorFileWatcher::EatControlCookie`, absent from the sources).  The file is read
fully; the call succeeds only if the byte length is exactly 32, and then returns
the bytes with the timestamp of extraction `now`; any other length, a directory
or a missing file is "not ready" with an empty cookie and zero timestamp.  Time
`0` is the null `base::Time()`. -/
def EatControlCookie (now : Nat) (entry : FileEntry (List Nat)) : CookieResult :=
  match entry with
  | FileEntry.regular bytes =>
    if bytes.length = 32 then { ready := true, cookie := bytes, time := now }
    else { ready := false, cookie := [], time := 0 }
  | _ => { ready := false, cookie := [], time := 0 }

/-- The platforms the port file is written on. -/
inductive Platform where
  | posix
  | windows
  deriving DecidableEq, Repr

/-- Modelled from the spec: the platform-appropriate line ending, `\n` or
`\r\n`. -/
def lineEnding : Platform → Str
  | Platform.posix => [Char.ofNat 10]
  | Platform.windows => [Char.ofNat 13, Char.ofNat 10]

/-- The colon character. -/
def colonChar : Char := Char.ofNat 58

/-- The key of the port line. -/
def kPortKey : Str := "PORT=".toList

/-- The loopback address. -/
def kLoopback : Str := "127.0.0.1".toList

/-- The value of a run of decimal digits. -/
def decimalValue (digits : Str) : Nat :=
  digits.foldl (fun n c => 10 * n + (c.toNat - 48)) 0

/-- Modelled from the spec: port extraction of the Handshake Watcher
(`TorFileWatcher::EatControlPort`, absent from the sources).  The file must be
exactly one line `PORT=<host>:<port>` followed by the platform line ending;
`<host>` must be the loopback address and `<port>` a decimal integer.  A host
other than loopback is rejected; a value above 65535 is rejected with the
sentinel 65536 in the output port; a value outside 1-65535 is rejected; a
missing or truncated terminator or trailing garbage is rejected with port 0 if
the port was unset before (negative, as callers initialise it) or the prior
value if set.  `port` is the value of the reference parameter before the call,
`now` the timestamp of extraction; every rejection leaves the timestamp zero. -/
def EatControlPort (platform : Platform) (now : Nat) (entry : FileEntry Str) (port : Int) :
    PortResult :=
  match entry with
  | FileEntry.regular text =>
    if kPortKey.isPrefixOf text then
      let rest := text.drop kPortKey.length
      let host := rest.takeWhile (fun c => c != colonChar)
      match rest.dropWhile (fun c => c != colonChar) with
      | [] => { ready := false, port := port, time := 0 }
      | _ :: number =>
        if host = kLoopback then
          let digits := number.takeWhile Char.isDigit
          let tail := number.dropWhile Char.isDigit
          if digits = [] then { ready := false, port := port, time := 0 }
          else if tail = lineEnding platform then
            if decimalValue digits > 65535 then { ready := false, port := 65536, time := 0 }
            else if decimalValue digits = 0 then { ready := false, port := port, time := 0 }
            else { ready := true, port := decimalValue digits, time := now }
          else { ready := false, port := if port < 0 then 0 else port, time := 0 }
        else { ready := false, port := port, time := 0 }
    else { ready := false, port := port, time := 0 }
  | _ => { ready := false, port := port, time := 0 }

/-- The port file that reads `PORT=127.0.0.1:`, then `digits`, then the line
ending of the platform. -/
def portLine (platform : Platform) (digits : Str) : Str :=
  "PORT=127.0.0.1:".toList ++ digits ++ lineEnding platform

/-- The bytes `expected_auth_cookie` of the unit test `EatControlCookie`. -/
def expected_auth_cookie : List Nat :=
  [0x6c, 0x6e, 0x9d, 0x24, 0x78, 0xe6, 0x6d, 0x69, 0xd3, 0x2d, 0xc9,
   0x90, 0x9a, 0x3c, 0x39, 0x54, 0x2b, 0x37, 0xff, 0x30, 0xda, 0x5a,
   0x90, 0x94, 0x44, 0xa4, 0x3d, 0x30, 0xd5, 0xa9, 0x19, 0xef]

/-- The port file of the normal-port scenario, `PORT=127.0.0.1:5566` and a
newline. -/
def normalControlPort : Str := "PORT=127.0.0.1:5566".toList ++ [Char.ofNat 10]

/-- A bootstrap line without the progress marker. -/
def bootstrapNoProgressLine : Str := "NOTICE BOOTSTRAP TAG=conn_done".toList

/-- The supervisor after process 42 of the running supervisor has crashed. -/
def crashedSupervisor : TorLauncherFactory := (OnTorCrashed runningSupervisor 42).st

/-! ## Reading a trace: basic facts -/

theorem launchRequests_append (a b : List Effect) :
    launchRequests (a ++ b) = launchRequests a ++ launchRequests b := by
  simp [launchRequests]

theorem delayedTasks_append (a b : List Effect) :
    delayedTasks (a ++ b) = delayedTasks a ++ delayedTasks b := by
  simp [delayedTasks]

theorem createdWatchers_append (a b : List Effect) :
    createdWatchers (a ++ b) = createdWatchers a ++ createdWatchers b := by
  simp [createdWatchers]

theorem notifications_append (a b : List Effect) :
    notifications (a ++ b) = notifications a ++ notifications b := by
  simp [notifications]

theorem launchRequests_notifyAll (s : TorLauncherFactory) (c : ObserverCall) :
    launchRequests (notifyAll s c) = [] := by
  unfold notifyAll
  induction s.observers_ with
  | nil => rfl
  | cons o os _ => simp [launchRequests]

theorem delayedTasks_notifyAll (s : TorLauncherFactory) (c : ObserverCall) :
    delayedTasks (notifyAll s c) = [] := by
  unfold notifyAll
  induction s.observers_ with
  | nil => rfl
  | cons o os _ => simp [delayedTasks]

theorem createdWatchers_notifyAll (s : TorLauncherFactory) (c : ObserverCall) :
    createdWatchers (notifyAll s c) = [] := by
  unfold notifyAll
  induction s.observers_ with
  | nil => rfl
  | cons o os _ => simp [createdWatchers]

theorem notifications_notifyAll (s : TorLauncherFactory) (c : ObserverCall) :
    notifications (notifyAll s c) = s.observers_.map (fun o => (o, c)) := by
  unfold notifyAll
  induction s.observers_ with
  | nil => rfl
  | cons o os ih => simpa [notifications] using ih

/-! ## `std::string::find`: basic facts -/

/-- When no occurrence of `pat` starts before position `a.length` of
`a ++ (pat ++ rest)`, the search started at index `i` returns `i + a.length`. -/
theorem findFrom_first (pat rest : Str) :
    ∀ (a : Str) (i : Nat),
      (∀ k, k < a.length → ¬ pat <+: (a ++ (pat ++ rest)).drop k) →
      findFrom pat (a ++ (pat ++ rest)) i = i + a.length := by
  intro a
  induction a with
  | nil =>
    intro i _
    cases hpr : pat ++ rest with
    | nil =>
      have hpat : pat = [] := (List.append_eq_nil.mp hpr).1
      simp [findFrom, hpat]
    | cons c cs =>
      have hpre : pat <+: c :: cs := hpr ▸ List.prefix_append pat rest
      simp [findFrom, hpr, List.isPrefixOf_iff_prefix.mpr hpre]
  | cons x a ih =>
    intro i hno
    have h0 : ¬ pat <+: x :: (a ++ (pat ++ rest)) := by
      simpa using hno 0 (by simp)
    have hstep : findFrom pat (x :: (a ++ (pat ++ rest))) i
        = findFrom pat (a ++ (pat ++ rest)) (i + 1) := by
      have hb : pat.isPrefixOf (x :: (a ++ (pat ++ rest))) = false := by
        cases hc : pat.isPrefixOf (x :: (a ++ (pat ++ rest))) with
        | false => rfl
        | true => exact absurd (List.isPrefixOf_iff_prefix.mp hc) h0
      simp [findFrom, hb]
    have hrest : ∀ k, k < a.length → ¬ pat <+: (a ++ (pat ++ rest)).drop k := by
      intro k hk
      simpa using hno (k + 1) (by simpa using hk)
    rw [List.cons_append, hstep, ih (i + 1) hrest]
    simp only [List.length_cons]
    omega

/-- A text that contains `pat` is searched successfully: the match found ends
inside the text. -/
theorem findFrom_infix_le (pat : Str) :
    ∀ (s : Str) (i : Nat), pat <:+: s → findFrom pat s i + pat.length ≤ i + s.length := by
  intro s
  induction s with
  | nil =>
    intro i h
    have hpat : pat = [] := List.infix_nil.mp h
    simp [findFrom, hpat]
  | cons c cs ih =>
    intro i h
    cases hc : pat.isPrefixOf (c :: cs) with
    | true =>
      have hle := (List.isPrefixOf_iff_prefix.mp hc).length_le
      simp only [findFrom, hc, if_true]
      omega
    | false =>
      have hnot : ¬ pat <+: c :: cs := by
        intro hp
        rw [List.isPrefixOf_iff_prefix.mpr hp] at hc
        exact absurd hc (by decide)
      have hin : pat <:+: cs := by
        rcases List.infix_cons_iff.mp h with h1 | h1
        · exact absurd h1 hnot
        · exact h1
      have := ih (i + 1) hin
      simp only [findFrom, hc, List.length_cons]
      simp only [Bool.false_eq_true, if_false]
      omega

/-- Searching for one character that the text does not hold fails. -/
theorem findFrom_char_absent (ch : Char) :
    ∀ (a : Str) (i : Nat), ch ∉ a → findFrom [ch] a i = npos := by
  intro a
  induction a with
  | nil => intro i _; simp [findFrom]
  | cons x a ih =>
    intro i h
    have hx : ¬ ch = x := fun e => h (by simp [e])
    have ha : ch ∉ a := fun e => h (List.mem_cons_of_mem _ e)
    simp [findFrom, List.isPrefixOf, hx, ih (i + 1) ha]

/-- Searching for one character finds its first occurrence. -/
theorem findFrom_char_first (ch : Char) (rest : Str) :
    ∀ (a : Str) (i : Nat), ch ∉ a → findFrom [ch] (a ++ ch :: rest) i = i + a.length := by
  intro a
  induction a with
  | nil => intro i _; simp [findFrom, List.isPrefixOf]
  | cons x a ih =>
    intro i h
    have hx : ¬ ch = x := fun e => h (by simp [e])
    have ha : ch ∉ a := fun e => h (List.mem_cons_of_mem _ e)
    have hstep := ih (i + 1) ha
    simp only [List.cons_append, findFrom, List.isPrefixOf, List.length_cons]
    simp only [beq_iff_eq, hx, Bool.and_true, Bool.false_eq_true, if_false]
    show findFrom [ch] (a ++ ch :: rest) (i + 1) = i + (a.length + 1)
    rw [hstep]
    omega


/-! ## Launching -/

/-- C1. Duplicate launch: from an idle supervisor (not starting, no process id,
launcher bound or able to bind) and a configuration with three non-empty paths,
the first `LaunchTorProcess` issues exactly one launch request, for that
configuration, and sets the starting flag; a second `LaunchTorProcess` right
after it returns at the "already starting" check, issues nothing but the
warning, and leaves the whole record as the first call left it, so the two calls
together issue exactly one launch request. -/
theorem duplicate_launch_issues_one_request (dcheck_is_on binds : Bool)
    (s s1 : TorLauncherFactory) (fx1 : List Effect) (config config2 : TorConfig)
    (hstart : s.is_starting_ = false) (hpid : s.tor_pid_ < 0)
    (hbind : s.tor_launcher_bound = true ∨ binds = true)
    (hbin : config.binary_path ≠ []) (hdata : config.tor_data_path ≠ [])
    (hwatch : config.tor_watch_path ≠ [])
    (hs1 : s1 = { s with is_starting_ := true, config_ := config, tor_launcher_bound := true,
                         tor_file_watcher_ := some { watch_path := config.tor_watch_path } })
    (hfx1 : fx1 = (if s.tor_launcher_bound then [] else [Effect.ServiceLaunch]) ++
                  [Effect.CreateWatcher config.tor_watch_path, Effect.Launch config]) :
    LaunchTorProcess dcheck_is_on binds s config = Except.ok { st := s1, fx := fx1 } ∧
    launchRequests fx1 = [config] ∧
    LaunchTorProcess dcheck_is_on binds s1 config2
      = Except.ok { st := s1, fx := [Effect.Log LogLine.AlreadyStarting] } ∧
    launchRequests (fx1 ++ [Effect.Log LogLine.AlreadyStarting]) = [config] := by
  have hp : ¬ (0 ≤ s.tor_pid_) := not_le.mpr hpid
  have e1 : config.binary_path.isEmpty = false := by
    cases h : config.binary_path with
    | nil => exact absurd h hbin
    | cons _ _ => rfl
  have e2 : config.tor_data_path.isEmpty = false := by
    cases h : config.tor_data_path with
    | nil => exact absurd h hdata
    | cons _ _ => rfl
  have e3 : config.tor_watch_path.isEmpty = false := by
    cases h : config.tor_watch_path with
    | nil => exact absurd h hwatch
    | cons _ _ => rfl
  subst hs1 hfx1
  cases hl : s.tor_launcher_bound
  · have hb : binds = true := by
      rcases hbind with h | h
      · rw [hl] at h; exact absurd h (by decide)
      · exact h
    refine ⟨?_, ?_, ?_, ?_⟩
    · simp [LaunchTorProcess, hstart, hp, e1, e2, e3, dcheckFails, hb, hl, LaunchTorInternal,
        Init]
    · simp [launchRequests]
    · simp [LaunchTorProcess]
    · simp [launchRequests]
  · refine ⟨?_, ?_, ?_, ?_⟩
    · simp [LaunchTorProcess, hstart, hp, e1, e2, e3, dcheckFails, hl, LaunchTorInternal]
    · simp [launchRequests]
    · simp [LaunchTorProcess]
    · simp [launchRequests]

/-- Witness for C1: the idle supervisor with a bound launcher and the sample
configuration, in a build with `DCHECK`s. -/
theorem duplicate_launch_issues_one_request_witness :
    LaunchTorProcess true false idleSupervisor sampleConfig
      = Except.ok
          { st := { idleSupervisor with
                      is_starting_ := true, config_ := sampleConfig, tor_launcher_bound := true,
                      tor_file_watcher_ := some { watch_path := sampleConfig.tor_watch_path } },
            fx := (if idleSupervisor.tor_launcher_bound then [] else [Effect.ServiceLaunch]) ++
                  [Effect.CreateWatcher sampleConfig.tor_watch_path,
                   Effect.Launch sampleConfig] } :=
  (duplicate_launch_issues_one_request true false idleSupervisor _ _ sampleConfig sampleConfig
    rfl (by decide) (Or.inl rfl) (by decide) (by decide) (by decide) rfl rfl).1

/-- C2. `LaunchTorProcess` on a running daemon (process 42, not starting) issues
no launch request and keeps the process id, the connected flag, the proxy URI,
the version and the configuration, but it is not a no-op: it returns at the
"is running" check after it has already set the starting flag, which was false
before the call and is true after it. -/
theorem launch_on_running_daemon_sets_starting :
    runningSupervisor.is_starting_ = false ∧ 0 ≤ runningSupervisor.tor_pid_ ∧
    LaunchTorProcess true true runningSupervisor sampleConfig
      = Except.ok { st := { runningSupervisor with is_starting_ := true },
                    fx := [Effect.Log (LogLine.AlreadyRunning 42)] } ∧
    ({ runningSupervisor with is_starting_ := true } : TorLauncherFactory)
      ≠ runningSupervisor := by
  refine ⟨rfl, by decide, rfl, by decide⟩

/-- C3. `OnTorLaunched` with `result = false` notifies the observers, logs the
failure and returns without touching the record: a starting flag that was true
when the failure is reported is still true afterwards. -/
theorem failed_launch_keeps_starting_flag (s : TorLauncherFactory) (pid : Int) :
    OnTorLaunched { s with is_starting_ := true } false pid
      = Except.ok { st := { s with is_starting_ := true },
                    fx := notifyAll s (ObserverCall.OnTorLaunched false pid) ++
                          [Effect.Log (LogLine.LaunchingFailed pid)] } := by
  simp [OnTorLaunched, notifyAll]

/-! ## Teardown and crash handling -/

/-- C4. `KillTorProcess` in any state: afterwards `GetTorPid` is `-1`,
`IsTorConnected` is false, the control client has received `Stop` and is
`Closed`, and a second `KillTorProcess` leaves the record as the first one
left it. -/
theorem kill_clears_and_is_idempotent (s : TorLauncherFactory) :
    GetTorPid (KillTorProcess s).st = -1 ∧
    IsTorConnected (KillTorProcess s).st = false ∧
    Effect.ControlStop ∈ (KillTorProcess s).fx ∧
    (KillTorProcess s).st.control_ = TorControl.Closed ∧
    (KillTorProcess (KillTorProcess s).st).st = (KillTorProcess s).st := by
  refine ⟨rfl, rfl, ?_, rfl, rfl⟩
  simp [KillTorProcess]

/-- C5. Crash policy: `OnTorCrashed(pid)` in any state notifies every
registered observer with `OnTorCrashed(pid)` (each once, in registration order,
and nothing else), leaves the starting flag false, the connected flag false and
the process id `-1`, stops the control client, keeps the configuration, issues
no launch request, and posts exactly one delayed task, `RelaunchTor` after one
second. -/
theorem crash_policy (s : TorLauncherFactory) (pid : Int) :
    (∀ o ∈ s.observers_,
      Effect.Notify o (ObserverCall.OnTorCrashed pid) ∈ (OnTorCrashed s pid).fx) ∧
    notifications (OnTorCrashed s pid).fx
      = s.observers_.map (fun o => (o, ObserverCall.OnTorCrashed pid)) ∧
    (OnTorCrashed s pid).st.is_starting_ = false ∧
    (OnTorCrashed s pid).st.is_connected_ = false ∧
    (OnTorCrashed s pid).st.tor_pid_ = -1 ∧
    Effect.ControlStop ∈ (OnTorCrashed s pid).fx ∧
    (OnTorCrashed s pid).st.control_ = TorControl.Closed ∧
    (OnTorCrashed s pid).st.config_ = s.config_ ∧
    launchRequests (OnTorCrashed s pid).fx = [] ∧
    delayedTasks (OnTorCrashed s pid).fx = [(Task.RelaunchTor, 1)] := by
  refine ⟨?_, ?_, rfl, rfl, rfl, ?_, rfl, rfl, ?_, ?_⟩
  · intro o ho
    simp only [OnTorCrashed, notifyAll]
    simp
    exact Or.inl ho
  · simp only [OnTorCrashed, DelayedRelaunchTor, KillTorProcess]
    rw [List.cons_append, ← List.singleton_append, notifications_append, notifications_append,
      notifications_notifyAll]
    cases s.tor_launcher_bound <;> simp [notifications]
  · simp [OnTorCrashed, DelayedRelaunchTor, KillTorProcess]
  · simp only [OnTorCrashed, DelayedRelaunchTor, KillTorProcess]
    rw [List.cons_append, ← List.singleton_append, launchRequests_append, launchRequests_append,
      launchRequests_notifyAll]
    cases s.tor_launcher_bound <;> simp [launchRequests]
  · simp only [OnTorCrashed, DelayedRelaunchTor, KillTorProcess]
    rw [List.cons_append, ← List.singleton_append, delayedTasks_append, delayedTasks_append,
      delayedTasks_notifyAll]
    cases s.tor_launcher_bound <;> simp [delayedTasks]

/-- C6, as stated, fails on the running supervisor (not starting, process 42,
connected, one observer, bound launcher): `OnTorControlClosed(true)` notifies
no observer at all, leaves the connected flag true and the process id 42, posts
no delayed task, and issues an immediate launch request. -/
theorem control_closed_is_not_crash_policy :
    runningSupervisor.is_starting_ = false ∧ 0 ≤ runningSupervisor.tor_pid_ ∧
    notifications (OnTorControlClosed runningSupervisor true).fx = [] ∧
    (OnTorControlClosed runningSupervisor true).st.is_connected_ = true ∧
    (OnTorControlClosed runningSupervisor true).st.tor_pid_ = 42 ∧
    delayedTasks (OnTorControlClosed runningSupervisor true).fx = [] ∧
    launchRequests (OnTorControlClosed runningSupervisor true).fx = [sampleConfig] := by
  refine ⟨rfl, by decide, rfl, rfl, rfl, rfl, rfl⟩

/-- C6, amended. For every supervisor state with the starting flag false and a
process id present, `OnTorControlClosed(true)` starts over through
`LaunchTorInternal`: it replaces the watcher by a fresh one over the configured
watch directory and changes nothing else in the record (connected flag, process
id and control client stay as they were), notifies no observer, posts no delayed
task, and issues one immediate launch request with the stored configuration
when the launcher is bound, none when it is not. -/
theorem control_closed_starts_over (s : TorLauncherFactory)
    (hstart : s.is_starting_ = false) (hpid : 0 ≤ s.tor_pid_) :
    (OnTorControlClosed s true).st
      = { s with tor_file_watcher_ := some { watch_path := s.config_.tor_watch_path } } ∧
    0 ≤ (OnTorControlClosed s true).st.tor_pid_ ∧
    (OnTorControlClosed s true).st.is_connected_ = s.is_connected_ ∧
    notifications (OnTorControlClosed s true).fx = [] ∧
    delayedTasks (OnTorControlClosed s true).fx = [] ∧
    createdWatchers (OnTorControlClosed s true).fx = [s.config_.tor_watch_path] ∧
    launchRequests (OnTorControlClosed s true).fx
      = (if s.tor_launcher_bound then [s.config_] else []) := by
  cases s with
  | mk st co pid uri ver cfg bound w ctl obs =>
    simp only at hstart hpid
    subst hstart
    cases bound <;>
      simp [OnTorControlClosed, LaunchTorInternal, notifications, delayedTasks,
        createdWatchers, launchRequests, hpid]

/-- Witness for C6, amended: the running supervisor. -/
theorem control_closed_starts_over_witness :
    (OnTorControlClosed runningSupervisor true).st
      = { runningSupervisor with
            tor_file_watcher_ := some { watch_path := runningSupervisor.config_.tor_watch_path } } :=
  (control_closed_starts_over runningSupervisor rfl (by decide)).1

/-! ## Control events -/

/-- C7. On a connected supervisor, the `STATUS_CLIENT` line
`NOTICE CIRCUIT_NOT_ESTABLISHED REASON=CLOCK_JUMPED` (no `BOOTSTRAP` in it)
makes `OnTorEvent` tell every observer `OnTorCircuitEstablished(false)` and
return without writing `is_connected_`: `IsTorConnected` is true before the
event and still true after it. -/
theorem circuit_lost_keeps_connected (names : TorControlEvent → Str) (s : TorLauncherFactory)
    (extra : List (Str × Str)) :
    find circuitLostLine kStatusClientBootstrap = npos ∧
    find circuitLostLine kStatusClientCircuitNotEstablished ≠ npos ∧
    OnTorEvent names { s with is_connected_ := true } TorControlEvent.STATUS_CLIENT
        circuitLostLine extra
      = Except.ok
          { st := { s with is_connected_ := true },
            fx := notifyAll s (ObserverCall.OnTorControlEvent
                    (names TorControlEvent.STATUS_CLIENT ++ ": ".toList ++ circuitLostLine)) ++
                  notifyAll s (ObserverCall.OnTorCircuitEstablished false) } ∧
    IsTorConnected { s with is_connected_ := true } = true := by
  have h1 : find circuitLostLine kStatusClientBootstrap = npos := by decide
  have h2 : find circuitLostLine kStatusClientCircuitEstablished = npos := by decide
  have h3 : find circuitLostLine kStatusClientCircuitNotEstablished ≠ npos := by decide
  refine ⟨h1, h3, ?_, rfl⟩
  simp [OnTorEvent, h1, h2, h3, notifyAll]

/-! ## Configuration checks -/

/-- C8, as stated, fails in a build without `DCHECK`s: on the idle supervisor
with a bound launcher, `LaunchTorProcess` with an empty executable path stores
the configuration, creates a watcher and issues a launch request. -/
theorem empty_path_is_launched_without_dcheck :
    idleSupervisor.is_starting_ = false ∧ idleSupervisor.tor_pid_ < 0 ∧
    emptyBinaryConfig.binary_path = [] ∧
    LaunchTorProcess false true idleSupervisor emptyBinaryConfig
      = Except.ok
          { st := { idleSupervisor with
                      is_starting_ := true, config_ := emptyBinaryConfig,
                      tor_file_watcher_ := some { watch_path := "/watch".toList } },
            fx := [Effect.CreateWatcher "/watch".toList, Effect.Launch emptyBinaryConfig] } ∧
    idleSupervisor.config_ ≠ emptyBinaryConfig := by
  refine ⟨rfl, by decide, rfl, rfl, by decide⟩

/-- C8, amended. The three non-emptiness checks of `LaunchTorProcess` are
`DCHECK`s. For every configuration with an empty executable, data or watch path
and every idle supervisor: in a build with `DCHECK`s the call dies at the failed
check, with the configuration not stored, no watcher created and no launch
request issued; in a build without them the configuration is not validated, it
is stored, a watcher over its watch directory is created, and a launch request
for it is issued when the launcher is bound or binds in `Init`. -/
theorem empty_path_launch (binds : Bool) (s : TorLauncherFactory) (config : TorConfig)
    (hstart : s.is_starting_ = false) (hpid : s.tor_pid_ < 0)
    (hempty : config.binary_path = [] ∨ config.tor_data_path = [] ∨
      config.tor_watch_path = []) :
    LaunchTorProcess true binds s config
      = Except.error (Fault.dcheck, { st := { s with is_starting_ := true }, fx := [] }) ∧
    LaunchTorProcess false binds s config
      = Except.ok
          { st := { s with
                      is_starting_ := s.tor_launcher_bound || binds,
                      config_ := config,
                      tor_launcher_bound := s.tor_launcher_bound || binds,
                      tor_file_watcher_ := some { watch_path := config.tor_watch_path } },
            fx := (if s.tor_launcher_bound then [] else [Effect.ServiceLaunch]) ++
                  [Effect.CreateWatcher config.tor_watch_path] ++
                  (if s.tor_launcher_bound || binds then [Effect.Launch config] else []) } := by
  have hp : ¬ (0 ≤ s.tor_pid_) := not_le.mpr hpid
  constructor
  · simp only [LaunchTorProcess, hstart, hp, dcheckFails]
    rcases hempty with h | h | h
    · simp [h]
    · cases hb : config.binary_path <;> simp [h]
    · cases hb : config.binary_path <;> cases hd : config.tor_data_path <;> simp [h]
  · cases hl : s.tor_launcher_bound <;> cases binds <;>
      simp [LaunchTorProcess, hstart, hp, dcheckFails, LaunchTorInternal, Init, hl]

/-- Witness for C8, amended: the idle supervisor and the configuration with an
empty executable path. -/
theorem empty_path_launch_witness :
    LaunchTorProcess true true idleSupervisor emptyBinaryConfig
      = Except.error (Fault.dcheck,
          { st := { idleSupervisor with is_starting_ := true }, fx := [] }) :=
  (empty_path_launch true idleSupervisor emptyBinaryConfig rfl (by decide) (Or.inl rfl)).1

/-! ## Control replies -/

/-- The scheme constant holds no double-quote character. -/
theorem eraseRemove_scheme : eraseRemove kTorProxyScheme quoteChar = kTorProxyScheme := by
  decide

/-- C9. Derived proxy URI: for a reply without error and with a first listener
`first`, `GotSOCKSListeners` stores, and passes to every observer's
`OnTorNewProxyURI` (each once, in registration order), the text `socks5://`
followed by `first` with every double-quote character removed and the other
characters kept in order; that text holds no double-quote character, and
`GetTorProxyURI` returns it afterwards. -/
theorem proxy_uri_derivation (s : TorLauncherFactory) (first : Str) (others : List Str) :
    GotSOCKSListeners s false (first :: others)
      = Except.ok
          { st := { s with tor_proxy_uri_ :=
                      "socks5://".toList ++ first.filter (fun c => c != quoteChar) },
            fx := s.observers_.map (fun o => Effect.Notify o (ObserverCall.OnTorNewProxyURI
                      ("socks5://".toList ++ first.filter (fun c => c != quoteChar)))) } ∧
    quoteChar ∉ "socks5://".toList ++ first.filter (fun c => c != quoteChar) ∧
    (∀ r, GotSOCKSListeners s false (first :: others) = Except.ok r →
      GetTorProxyURI r.st = "socks5://".toList ++ first.filter (fun c => c != quoteChar)) := by
  have hfilter : eraseRemove (kTorProxyScheme ++ first) quoteChar
      = "socks5://".toList ++ first.filter (fun c => c != quoteChar) := by
    have h := eraseRemove_scheme
    unfold eraseRemove at h ⊢
    rw [List.filter_append, h]
    rfl
  have hrun : GotSOCKSListeners s false (first :: others)
      = Except.ok
          { st := { s with tor_proxy_uri_ :=
                      "socks5://".toList ++ first.filter (fun c => c != quoteChar) },
            fx := s.observers_.map (fun o => Effect.Notify o (ObserverCall.OnTorNewProxyURI
                      ("socks5://".toList ++ first.filter (fun c => c != quoteChar)))) } := by
    simp only [GotSOCKSListeners, notifyAll, Bool.false_eq_true, if_false,
      List.getElem?_cons_zero, hfilter]
  refine ⟨hrun, ?_, ?_⟩
  · intro hmem
    rcases List.mem_append.mp hmem with h | h
    · revert h
      decide
    · have := (List.mem_filter.mp h).2
      simp at this
  · intro r hr
    rw [hrun] at hr
    cases hr
    rfl

/-! ## Bootstrap progress -/

/-- The numeric value of `npos`. -/
theorem npos_eq : npos = 18446744073709551615 := by
  unfold npos
  norm_num

/-- The marker `PROGRESS=` holds no space. -/
theorem space_not_in_progress_marker : spaceChar ∉ kStatusClientBootstrapProgress := by
  decide

/-- The extraction arithmetic of `OnTorEvent` on a line `a ++ PROGRESS= ++ p ++ tail`
whose first `PROGRESS=` is the one shown, where `p` holds no space and `tail` is
empty or starts with a space: both `substr` calls succeed and the second one
returns `p`. -/
theorem progress_substr (a p tail : Str)
    (hlen : (a ++ (kStatusClientBootstrapProgress ++ (p ++ tail))).length < 2 ^ 64)
    (hfirst : ∀ k, k < a.length →
      ¬ kStatusClientBootstrapProgress
          <+: (a ++ (kStatusClientBootstrapProgress ++ (p ++ tail))).drop k)
    (hp : spaceChar ∉ p)
    (htail : tail = [] ∨ ∃ rest, tail = spaceChar :: rest) :
    find (a ++ (kStatusClientBootstrapProgress ++ (p ++ tail))) kStatusClientBootstrapProgress
      = a.length ∧
    substr (a ++ (kStatusClientBootstrapProgress ++ (p ++ tail))) a.length npos
      = Except.ok (kStatusClientBootstrapProgress ++ (p ++ tail)) ∧
    substr (a ++ (kStatusClientBootstrapProgress ++ (p ++ tail)))
        ((a.length + strlen kStatusClientBootstrapProgress) % 2 ^ 64)
        ((find (kStatusClientBootstrapProgress ++ (p ++ tail)) [spaceChar] + 2 ^ 64
            - strlen kStatusClientBootstrapProgress) % 2 ^ 64)
      = Except.ok p := by
  have hmarker : kStatusClientBootstrapProgress.length = 9 := rfl
  have hstrlen : strlen kStatusClientBootstrapProgress = 9 := rfl
  have hpow : (2 : Nat) ^ 64 = 18446744073709551616 := by norm_num
  have hlen2 : a.length + (9 + (p.length + tail.length)) < 18446744073709551616 := by
    have := hlen
    rw [hpow] at this
    simp only [List.length_append] at this
    rw [hmarker] at this
    exact this
  have hfind : find (a ++ (kStatusClientBootstrapProgress ++ (p ++ tail)))
      kStatusClientBootstrapProgress = a.length := by
    unfold find
    rw [findFrom_first _ _ a 0 hfirst]
    omega
  have hsub1 : substr (a ++ (kStatusClientBootstrapProgress ++ (p ++ tail))) a.length npos
      = Except.ok (kStatusClientBootstrapProgress ++ (p ++ tail)) := by
    unfold substr
    have hle : ¬ a.length > (a ++ (kStatusClientBootstrapProgress ++ (p ++ tail))).length := by
      simp only [List.length_append]
      omega
    rw [if_neg hle, List.drop_left, List.take_of_length_le]
    simp only [List.length_append, hmarker, npos_eq]
    omega
  have hdrop : (a ++ (kStatusClientBootstrapProgress ++ (p ++ tail))).drop (a.length + 9)
      = p ++ tail := by
    rw [← List.drop_drop, List.drop_left]
    have h9 : (kStatusClientBootstrapProgress ++ (p ++ tail)).drop
        kStatusClientBootstrapProgress.length = p ++ tail := List.drop_left _ _
    rw [hmarker] at h9
    exact h9
  have hpos : (a.length + 9) % 18446744073709551616 = a.length + 9 :=
    Nat.mod_eq_of_lt (by omega)
  have hposle : ¬ a.length + 9 > (a ++ (kStatusClientBootstrapProgress ++ (p ++ tail))).length := by
    simp only [List.length_append, hmarker]
    omega
  refine ⟨hfind, hsub1, ?_⟩
  rw [hstrlen, hpow, hpos]
  unfold substr
  rw [if_neg hposle, hdrop]
  rcases htail with ht | ⟨rest, ht⟩
  · subst ht
    have hnone : find (kStatusClientBootstrapProgress ++ (p ++ [])) [spaceChar] = npos := by
      unfold find
      apply findFrom_char_absent
      intro hmem
      rcases List.mem_append.mp hmem with h | h
      · exact space_not_in_progress_marker h
      · rw [List.append_nil] at h
        exact hp h
    rw [hnone, npos_eq]
    have hcount : (18446744073709551615 + 18446744073709551616 - 9) % 18446744073709551616
        = 18446744073709551606 := by norm_num
    rw [hcount, List.append_nil, List.take_of_length_le]
    simp only [List.length_nil] at hlen2
    omega
  · subst ht
    have hsome : find (kStatusClientBootstrapProgress ++ (p ++ spaceChar :: rest)) [spaceChar]
        = 9 + p.length := by
      unfold find
      rw [← List.append_assoc, findFrom_char_first]
      · simp only [List.length_append, hmarker]
        omega
      · intro hmem
        rcases List.mem_append.mp hmem with h | h
        · exact space_not_in_progress_marker h
        · exact hp h
    rw [hsome]
    have hcount : (9 + p.length + 18446744073709551616 - 9) % 18446744073709551616
        = p.length := by
      have : 9 + p.length + 18446744073709551616 - 9 = p.length + 18446744073709551616 := by
        omega
      rw [this, Nat.add_mod_right]
      exact Nat.mod_eq_of_lt (by omega)
    rw [hcount, List.take_left]

/-- The bootstrap branch of `OnTorEvent` on a line of the shape of
`progress_substr` that contains `BOOTSTRAP`. -/
theorem onTorEvent_progress (names : TorControlEvent → Str) (s : TorLauncherFactory)
    (a p tail : Str) (extra : List (Str × Str))
    (hlen : (a ++ (kStatusClientBootstrapProgress ++ (p ++ tail))).length < 2 ^ 64)
    (hboot : kStatusClientBootstrap <:+: a ++ (kStatusClientBootstrapProgress ++ (p ++ tail)))
    (hfirst : ∀ k, k < a.length →
      ¬ kStatusClientBootstrapProgress
          <+: (a ++ (kStatusClientBootstrapProgress ++ (p ++ tail))).drop k)
    (hp : spaceChar ∉ p)
    (htail : tail = [] ∨ ∃ rest, tail = spaceChar :: rest) :
    OnTorEvent names s TorControlEvent.STATUS_CLIENT
        (a ++ (kStatusClientBootstrapProgress ++ (p ++ tail))) extra
      = Except.ok
          { st := s,
            fx := notifyAll s (ObserverCall.OnTorControlEvent
                    (names TorControlEvent.STATUS_CLIENT ++ ": ".toList ++
                      (a ++ (kStatusClientBootstrapProgress ++ (p ++ tail))))) ++
                  notifyAll s (ObserverCall.OnTorInitializing p) } := by
  obtain ⟨hfind, hsub1, hsub2⟩ := progress_substr a p tail hlen hfirst hp htail
  have hb : find (a ++ (kStatusClientBootstrapProgress ++ (p ++ tail))) kStatusClientBootstrap
      ≠ npos := by
    have h := findFrom_infix_le kStatusClientBootstrap _ 0 hboot
    have h9 : kStatusClientBootstrap.length = 9 := rfl
    have hpow : (2 : Nat) ^ 64 = 18446744073709551616 := by norm_num
    rw [hpow] at hlen
    unfold find
    rw [npos_eq]
    rw [h9] at h
    omega
  unfold OnTorEvent
  simp only [if_true, hb, ne_eq, not_false_eq_true, hfind, hsub1, hsub2]

/-- C10. Bootstrap progress extraction: for a `STATUS_CLIENT` line that contains
`BOOTSTRAP` and reads `a ++ "PROGRESS=" ++ p ++ tail`, where no `PROGRESS=`
starts before the one shown, `p` holds no space, and `tail` is either empty (no
space follows the marker, `p` is the whole remainder of the line) or starts with
a space, `OnTorEvent` completes and passes exactly `p` to every observer's
`OnTorInitializing`, after the raw-event notification, and leaves the record
unchanged.  The line is shorter than `2^64` characters, as every `std::string`
is. -/
theorem bootstrap_progress_extraction (names : TorControlEvent → Str) (s : TorLauncherFactory)
    (a p tail : Str) (extra : List (Str × Str))
    (hlen : (a ++ ("PROGRESS=".toList ++ (p ++ tail))).length < 2 ^ 64)
    (hboot : "BOOTSTRAP".toList <:+: a ++ ("PROGRESS=".toList ++ (p ++ tail)))
    (hfirst : ∀ k, k < a.length →
      ¬ "PROGRESS=".toList <+: (a ++ ("PROGRESS=".toList ++ (p ++ tail))).drop k)
    (hp : spaceChar ∉ p)
    (htail : tail = [] ∨ ∃ rest, tail = spaceChar :: rest) :
    OnTorEvent names s TorControlEvent.STATUS_CLIENT
        (a ++ ("PROGRESS=".toList ++ (p ++ tail))) extra
      = Except.ok
          { st := s,
            fx := notifyAll s (ObserverCall.OnTorControlEvent
                    (names TorControlEvent.STATUS_CLIENT ++ ": ".toList ++
                      (a ++ ("PROGRESS=".toList ++ (p ++ tail))))) ++
                  notifyAll s (ObserverCall.OnTorInitializing p) } :=
  onTorEvent_progress names s a p tail extra hlen hboot hfirst hp htail

/-- Witness for C10: the line `NOTICE BOOTSTRAP PROGRESS=85 TAG=conn_done`. -/
theorem bootstrap_progress_extraction_witness :
    OnTorEvent eventNames runningSupervisor TorControlEvent.STATUS_CLIENT
        ("NOTICE BOOTSTRAP ".toList ++ ("PROGRESS=".toList ++ ("85".toList ++
          " TAG=conn_done".toList))) []
      = Except.ok
          { st := runningSupervisor,
            fx := notifyAll runningSupervisor (ObserverCall.OnTorControlEvent
                    (eventNames TorControlEvent.STATUS_CLIENT ++ ": ".toList ++
                      ("NOTICE BOOTSTRAP ".toList ++ ("PROGRESS=".toList ++ ("85".toList ++
                        " TAG=conn_done".toList))))) ++
                  notifyAll runningSupervisor (ObserverCall.OnTorInitializing "85".toList) } :=
  bootstrap_progress_extraction eventNames runningSupervisor "NOTICE BOOTSTRAP ".toList
    "85".toList " TAG=conn_done".toList [] (by decide) (by decide) (by decide) (by decide)
    (Or.inr ⟨"TAG=conn_done".toList, rfl⟩)

/-- C11. On the `STATUS_CLIENT` line `NOTICE BOOTSTRAP TAG=conn_done`, which
contains `BOOTSTRAP` and no `PROGRESS=`, `OnTorEvent` does not complete: after
the raw-event notification `find` returns `npos`, and `initial.substr(npos)` is
an out-of-range access that ends the process. -/
theorem bootstrap_without_progress_faults (names : TorControlEvent → Str)
    (s : TorLauncherFactory) (extra : List (Str × Str)) :
    "BOOTSTRAP".toList <:+: bootstrapNoProgressLine ∧
    ¬ "PROGRESS=".toList <:+: bootstrapNoProgressLine ∧
    OnTorEvent names s TorControlEvent.STATUS_CLIENT bootstrapNoProgressLine extra
      = Except.error (Fault.out_of_range,
          { st := s,
            fx := notifyAll s (ObserverCall.OnTorControlEvent
                    (names TorControlEvent.STATUS_CLIENT ++ ": ".toList ++
                      bootstrapNoProgressLine)) }) := by
  have h1 : find bootstrapNoProgressLine kStatusClientBootstrap ≠ npos := by decide
  have h2 : find bootstrapNoProgressLine kStatusClientBootstrapProgress = npos := by decide
  have h3 : substr bootstrapNoProgressLine npos npos = Except.error Fault.out_of_range := by
    have hgt : npos > bootstrapNoProgressLine.length := by decide
    simp [substr, hgt]
  refine ⟨by decide, by decide, ?_⟩
  simp [OnTorEvent, h1, h2, h3]

/-! ## Relaunch -/

/-- C15. After a crash of process 42 the starting flag is false; `RelaunchTor`
then issues its launch request to the re-initialised, bound launcher without
setting the flag, so it is still false, and a `LaunchTorProcess` that arrives
before `OnTorLaunched` is not rejected: it issues a second launch request. -/
theorem relaunch_leaves_starting_false :
    crashedSupervisor.is_starting_ = false ∧
    launchRequests (RelaunchTor true crashedSupervisor).fx = [sampleConfig] ∧
    (RelaunchTor true crashedSupervisor).st.tor_launcher_bound = true ∧
    (RelaunchTor true crashedSupervisor).st.is_starting_ = false ∧
    launchRequests (callsMade
      (LaunchTorProcess true true (RelaunchTor true crashedSupervisor).st sampleConfig))
      = [sampleConfig] := by
  refine ⟨rfl, rfl, rfl, rfl, rfl⟩

/-! ## Stale watcher results -/

/-- C16. Stale watcher results are dropped: when `pid` differs from the current
process id, `OnTorControlPrerequisitesReady(pid, ready, cookie, port)` returns
at the pid check for `ready` true and false alike: no call is made (the control
client is not started, the watcher is not re-armed) and the whole record is
unchanged.  In particular this holds for every `pid >= 0` on the record that
`KillTorProcess` leaves behind. -/
theorem stale_prerequisites_dropped (s : TorLauncherFactory) (pid : Int) (ready : Bool)
    (cookie : List Nat) (port : Int) (hpid : pid ≠ s.tor_pid_) :
    OnTorControlPrerequisitesReady s pid ready cookie port = Except.ok { st := s, fx := [] } ∧
    (0 ≤ pid →
      OnTorControlPrerequisitesReady (KillTorProcess s).st pid ready cookie port
        = Except.ok { st := (KillTorProcess s).st, fx := [] }) := by
  constructor
  · simp [OnTorControlPrerequisitesReady, hpid]
  · intro h0
    have hk : pid ≠ (KillTorProcess s).st.tor_pid_ := by
      show pid ≠ -1
      omega
    simp [OnTorControlPrerequisitesReady, hk]

/-- Witness for C16: a result for process 41 arrives while process 42 runs. -/
theorem stale_prerequisites_dropped_witness :
    OnTorControlPrerequisitesReady runningSupervisor 41 true expected_auth_cookie 9051
      = Except.ok { st := runningSupervisor, fx := [] } :=
  (stale_prerequisites_dropped runningSupervisor 41 true expected_auth_cookie 9051
    (by decide)).1

/-! ## Listener reply bounds -/

/-- C17. With `error = true`, `GotSOCKSListeners` returns at once: the record
(and so the stored proxy URI) is unchanged and no observer is notified.  With
`error = false` and an empty listener list it does not complete: `listeners[0]`
is read outside the vector. -/
theorem empty_listeners_indexed_out_of_range (s : TorLauncherFactory)
    (listeners : List Str) :
    GotSOCKSListeners s true listeners = Except.ok { st := s, fx := [] } ∧
    GotSOCKSListeners s false []
      = Except.error (Fault.index_out_of_bounds, { st := s, fx := [] }) := by
  constructor <;> simp [GotSOCKSListeners]

/-! ## Connectivity invariant -/

/-- A search that does not return `npos` has found an occurrence. -/
theorem findFrom_found (pat : Str) :
    ∀ (s : Str) (i : Nat), findFrom pat s i ≠ npos → pat <:+: s := by
  intro s
  induction s with
  | nil =>
    intro i h
    by_cases hp : pat = []
    · rw [hp]
    · simp [findFrom, hp] at h
  | cons c cs ih =>
    intro i h
    cases hc : pat.isPrefixOf (c :: cs) with
    | true => exact (List.isPrefixOf_iff_prefix.mp hc).isInfix
    | false =>
      simp only [findFrom, hc, Bool.false_eq_true, if_false] at h
      exact List.infix_cons (ih (i + 1) h)

/-- On a line shorter than `2^64`, `OnTorEvent` sets the connected flag only for
a `STATUS_CLIENT` line that contains `CIRCUIT_ESTABLISHED` and no `BOOTSTRAP`. -/
theorem onTorEvent_keeps_disconnected (names : TorControlEvent → Str) (s : TorLauncherFactory)
    (event : TorControlEvent) (initial : Str) (extra : List (Str × Str))
    (hc : s.is_connected_ = false) (hfit : initial.length < 2 ^ 64)
    (hne : ¬ (event = TorControlEvent.STATUS_CLIENT ∧
      kStatusClientCircuitEstablished <:+: initial ∧ ¬ kStatusClientBootstrap <:+: initial)) :
    (lastState (OnTorEvent names s event initial extra)).is_connected_ = false := by
  unfold OnTorEvent
  simp only []
  split
  · rename_i hev
    split
    · repeat' split
      all_goals exact hc
    · rename_i hb
      split
      · rename_i hce
        exfalso
        apply hne
        refine ⟨hev, findFrom_found _ _ 0 hce, ?_⟩
        intro hin
        apply hb
        have h := findFrom_infix_le kStatusClientBootstrap initial 0 hin
        have h9 : kStatusClientBootstrap.length = 9 := rfl
        have hpow : (2 : Nat) ^ 64 = 18446744073709551616 := by norm_num
        rw [hpow] at hfit
        rw [h9] at h
        unfold find
        rw [npos_eq]
        omega
      · split <;> exact hc
  · exact hc

/-- C14. The connected flag becomes true only through a circuit-established
event: from a record with `is_connected_ = false`, each of `LaunchTorProcess`,
`KillTorProcess`, `OnTorLaunched`, `OnTorCrashed`, `OnTorLauncherCrashed`,
`OnTorControlReady`, `GotVersion`, `GotSOCKSListeners`, `OnTorControlClosed`,
`OnTorControlPrerequisitesReady`, `RelaunchTor`, and `OnTorEvent` with any class
and line other than `STATUS_CLIENT` with `CIRCUIT_ESTABLISHED` and without
`BOOTSTRAP`, leaves `is_connected_ = false`, whether it runs to its end or stops
at a fault.  Lines are shorter than `2^64` characters. -/
theorem connected_only_by_circuit_established (names : TorControlEvent → Str) (op : Op)
    (s : TorLauncherFactory) (hc : s.is_connected_ = false) (hfit : op.stringsFit)
    (hne : ¬ op.isCircuitEstablishedEvent) :
    (lastState (op.run names s)).is_connected_ = false := by
  cases op with
  | LaunchTorProcess d b config =>
    simp only [Op.run, LaunchTorProcess, LaunchTorInternal, Init]
    repeat' split
    all_goals exact hc
  | KillTorProcess => rfl
  | OnTorLaunched result pid =>
    simp only [Op.run, OnTorLaunched]
    repeat' split
    all_goals first | exact hc | rfl
  | OnTorCrashed pid => rfl
  | OnTorLauncherCrashed => rfl
  | OnTorControlReady => exact hc
  | GotVersion error version =>
    simp only [Op.run, GotVersion, lastState]
    split <;> exact hc
  | GotSOCKSListeners error listeners =>
    simp only [Op.run, GotSOCKSListeners]
    repeat' split
    all_goals exact hc
  | OnTorControlClosed was_running =>
    simp only [Op.run, OnTorControlClosed, LaunchTorInternal, lastState]
    repeat' split
    all_goals exact hc
  | OnTorControlPrerequisitesReady pid ready cookie port =>
    simp only [Op.run, OnTorControlPrerequisitesReady]
    repeat' split
    all_goals exact hc
  | RelaunchTor b =>
    simp only [Op.run, RelaunchTor, LaunchTorInternal, Init, lastState]
    repeat' split
    all_goals exact hc
  | OnTorEvent event initial extra =>
    exact onTorEvent_keeps_disconnected names s event initial extra hc hfit hne

/-- Witness for C14: a circuit-lost event on the idle supervisor. -/
theorem connected_only_by_circuit_established_witness :
    (lastState ((Op.OnTorEvent TorControlEvent.STATUS_CLIENT circuitLostLine []).run
      eventNames idleSupervisor)).is_connected_ = false :=
  connected_only_by_circuit_established eventNames
    (Op.OnTorEvent TorControlEvent.STATUS_CLIENT circuitLostLine []) idleSupervisor rfl
    (show circuitLostLine.length < 2 ^ 64 by decide)
    (show ¬ (TorControlEvent.STATUS_CLIENT = TorControlEvent.STATUS_CLIENT ∧
        kStatusClientCircuitEstablished <:+: circuitLostLine ∧
        ¬ kStatusClientBootstrap <:+: circuitLostLine) by decide)

/-! ## Handshake extraction -/

/-- C12. Cookie extraction: `EatControlCookie` returns true if and only if the
cookie artifact is a regular file of exactly 32 bytes; when it returns true the
output cookie is the content of the file, 32 bytes long, and the output
timestamp is non-zero; when it returns false (missing file, directory, empty
file, any other length) the output cookie is empty and the output timestamp is
zero.  The 32 bytes of the unit test are returned as they are.  The clock never
reads the null time. -/
theorem cookie_extraction (now : Nat) (entry : FileEntry (List Nat)) (hnow : now ≠ 0) :
    ((EatControlCookie now entry).ready = true ↔
      ∃ bytes, entry = FileEntry.regular bytes ∧ bytes.length = 32) ∧
    ((EatControlCookie now entry).ready = true →
      entry = FileEntry.regular (EatControlCookie now entry).cookie ∧
      (EatControlCookie now entry).cookie.length = 32 ∧
      (EatControlCookie now entry).time ≠ 0) ∧
    ((EatControlCookie now entry).ready = false →
      (EatControlCookie now entry).cookie = [] ∧ (EatControlCookie now entry).time = 0) ∧
    EatControlCookie now FileEntry.missing = { ready := false, cookie := [], time := 0 } ∧
    EatControlCookie now FileEntry.directory = { ready := false, cookie := [], time := 0 } ∧
    EatControlCookie now (FileEntry.regular []) = { ready := false, cookie := [], time := 0 } ∧
    EatControlCookie now (FileEntry.regular expected_auth_cookie)
      = { ready := true, cookie := expected_auth_cookie, time := now } := by
  refine ⟨?_, ?_, ?_, rfl, rfl, rfl, rfl⟩
  · cases entry with
    | missing => simp [EatControlCookie]
    | directory => simp [EatControlCookie]
    | regular bytes =>
      by_cases h : bytes.length = 32 <;> simp [EatControlCookie, h]
  · cases entry with
    | missing => simp [EatControlCookie]
    | directory => simp [EatControlCookie]
    | regular bytes =>
      by_cases h : bytes.length = 32 <;> simp [EatControlCookie, h, hnow]
  · cases entry with
    | missing => simp [EatControlCookie]
    | directory => simp [EatControlCookie]
    | regular bytes =>
      by_cases h : bytes.length = 32 <;> simp [EatControlCookie, h]

/-- Witness for C12: the 32-byte cookie of the unit test, read at time 1. -/
theorem cookie_extraction_witness :
    (EatControlCookie 1 (FileEntry.regular expected_auth_cookie)).ready = true ∧
    (EatControlCookie 1 (FileEntry.regular expected_auth_cookie)).cookie
      = expected_auth_cookie :=
  ⟨((cookie_extraction 1 (FileEntry.regular expected_auth_cookie) (by decide)).1).mpr
      ⟨expected_auth_cookie, rfl, rfl⟩,
   rfl⟩

/-- A run of characters that satisfy `p`, followed by a text that is empty or
starts with a character that does not, is split exactly there. -/
theorem takeWhile_dropWhile_stop (p : Char → Bool) (r : Str)
    (hr : ∀ x, r.head? = some x → p x = false) :
    ∀ l : Str, (∀ c ∈ l, p c = true) →
      (l ++ r).takeWhile p = l ∧ (l ++ r).dropWhile p = r := by
  intro l
  induction l with
  | nil =>
    intro _
    cases r with
    | nil => simp
    | cons x xs =>
      have hx : p x = false := hr x rfl
      simp [List.takeWhile, List.dropWhile, hx]
  | cons a l ih =>
    intro hl
    have ha : p a = true := hl a (List.mem_cons_self a l)
    have hrest := ih (fun c hc => hl c (List.mem_cons_of_mem a hc))
    simp [List.takeWhile, List.dropWhile, ha, hrest.1, hrest.2]

/-- The first character that `dropWhile` keeps does not satisfy the test. -/
theorem dropWhile_head_stops (p : Char → Bool) :
    ∀ (l : Str) (x : Char) (xs : Str), l.dropWhile p = x :: xs → p x = false := by
  intro l
  induction l with
  | nil => intro x xs h; simp at h
  | cons a l ih =>
    intro x xs h
    cases ha : p a with
    | true =>
      rw [List.dropWhile_cons, ha] at h
      exact ih x xs h
    | false =>
      rw [List.dropWhile_cons, ha] at h
      have hax : a = x := by
        simp only [Bool.false_eq_true, if_false] at h
        exact (List.cons.inj h).1
      rw [← hax]
      exact ha

/-- A line ending does not start with a decimal digit. -/
theorem lineEnding_head_not_digit (platform : Platform) :
    ∀ x, (lineEnding platform).head? = some x → x.isDigit = false := by
  cases platform <;> decide

/-- The address `127.0.0.1` holds no colon. -/
theorem loopback_no_colon : ∀ c ∈ kLoopback, (c != colonChar) = true := by
  decide

/-- Port extraction on a file that reads `PORT=127.0.0.1:`, a non-empty run of
decimal digits and the line ending: the outcome depends on the value alone. -/
theorem eatControlPort_on_line (platform : Platform) (now : Nat) (port : Int) (digits : Str)
    (hne : digits ≠ []) (hdig : ∀ c ∈ digits, c.isDigit = true) :
    EatControlPort platform now
        (FileEntry.regular (kPortKey ++ (kLoopback ++ colonChar :: (digits ++ lineEnding platform))))
        port
      = (if decimalValue digits > 65535 then { ready := false, port := 65536, time := 0 }
         else if decimalValue digits = 0 then { ready := false, port := port, time := 0 }
         else { ready := true, port := decimalValue digits, time := now }) := by
  have hpre : kPortKey.isPrefixOf
      (kPortKey ++ (kLoopback ++ colonChar :: (digits ++ lineEnding platform))) = true :=
    List.isPrefixOf_iff_prefix.mpr (List.prefix_append _ _)
  have hdrop : (kPortKey ++ (kLoopback ++ colonChar :: (digits ++ lineEnding platform))).drop
      kPortKey.length = kLoopback ++ colonChar :: (digits ++ lineEnding platform) :=
    List.drop_left _ _
  have hhost := takeWhile_dropWhile_stop (fun c => c != colonChar)
    (colonChar :: (digits ++ lineEnding platform))
    (by intro x hx; simp at hx; rw [← hx]; decide) kLoopback loopback_no_colon
  have hnum := takeWhile_dropWhile_stop Char.isDigit (lineEnding platform)
    (lineEnding_head_not_digit platform) digits hdig
  unfold EatControlPort
  simp only [hpre, if_true, hdrop, hhost.1, hhost.2, hnum.1, hnum.2, hne, if_false]

/-- A successful port extraction read a file of the accepted shape. -/
theorem eatControlPort_ready_shape (platform : Platform) (now : Nat) (entry : FileEntry Str)
    (port : Int) (h : (EatControlPort platform now entry port).ready = true) :
    ∃ digits, entry = FileEntry.regular
        (kPortKey ++ (kLoopback ++ colonChar :: (digits ++ lineEnding platform))) ∧
      digits ≠ [] ∧ (∀ c ∈ digits, c.isDigit = true) := by
  cases entry with
  | missing => simp [EatControlPort] at h
  | directory => simp [EatControlPort] at h
  | regular text =>
    unfold EatControlPort at h
    simp only [] at h
    by_cases hpre : kPortKey.isPrefixOf text = true
    · rw [if_pos hpre] at h
      obtain ⟨rest, hrest⟩ := List.isPrefixOf_iff_prefix.mp hpre
      have hdrop : text.drop kPortKey.length = rest := by
        rw [← hrest]
        exact List.drop_left _ _
      rw [hdrop] at h
      cases hdw : rest.dropWhile (fun c => c != colonChar) with
      | nil =>
        rw [hdw] at h
        simp at h
      | cons x number =>
        rw [hdw] at h
        simp only [] at h
        have hx : x = colonChar := by
          have := dropWhile_head_stops _ rest x number hdw
          simpa using this
        by_cases hhost : rest.takeWhile (fun c => c != colonChar) = kLoopback
        · rw [if_pos hhost] at h
          by_cases hd : number.takeWhile Char.isDigit = []
          · rw [if_pos hd] at h
            simp at h
          · rw [if_neg hd] at h
            by_cases ht : number.dropWhile Char.isDigit = lineEnding platform
            · refine ⟨number.takeWhile Char.isDigit, ?_, hd, ?_⟩
              · have h1 : rest = kLoopback ++ colonChar :: number := by
                  have := List.takeWhile_append_dropWhile (fun c => c != colonChar) rest
                  rw [hhost, hdw, hx] at this
                  exact this.symm
                have h2 : number = number.takeWhile Char.isDigit ++ lineEnding platform := by
                  have := List.takeWhile_append_dropWhile Char.isDigit number
                  rw [ht] at this
                  exact this.symm
                rw [← hrest, h1, ← h2]
              · intro c hc
                exact (List.mem_takeWhile_imp hc)
            · rw [if_neg ht] at h
              simp at h
        · rw [if_neg hhost] at h
          simp at h
    · rw [if_neg hpre] at h
      simp at h

/-- The two spellings of the accepted port line agree. -/
theorem portLine_eq (platform : Platform) (digits : Str) :
    portLine platform digits
      = kPortKey ++ (kLoopback ++ colonChar :: (digits ++ lineEnding platform)) := by
  simp [portLine, kPortKey, kLoopback, colonChar]

/-- A rejected port extraction leaves the timestamp zero, an accepted one sets
it to the time of extraction. -/
theorem eatControlPort_time (platform : Platform) (now : Nat) (entry : FileEntry Str)
    (port : Int) :
    ((EatControlPort platform now entry port).ready = false →
      (EatControlPort platform now entry port).time = 0) ∧
    ((EatControlPort platform now entry port).ready = true →
      (EatControlPort platform now entry port).time = now) := by
  cases entry with
  | missing => simp [EatControlPort]
  | directory => simp [EatControlPort]
  | regular text =>
    unfold EatControlPort
    simp only []
    by_cases hpre : kPortKey.isPrefixOf text = true
    · rw [if_pos hpre]
      cases (text.drop kPortKey.length).dropWhile (fun c => c != colonChar) with
      | nil => simp
      | cons x number =>
        simp only []
        by_cases hhost : (text.drop kPortKey.length).takeWhile (fun c => c != colonChar)
            = kLoopback
        · rw [if_pos hhost]
          by_cases hd : number.takeWhile Char.isDigit = []
          · rw [if_pos hd]
            simp
          · rw [if_neg hd]
            by_cases ht : number.dropWhile Char.isDigit = lineEnding platform
            · rw [if_pos ht]
              by_cases hbig : decimalValue (number.takeWhile Char.isDigit) > 65535
              · rw [if_pos hbig]
                simp
              · rw [if_neg hbig]
                by_cases hz : decimalValue (number.takeWhile Char.isDigit) = 0
                · rw [if_pos hz]
                  simp
                · rw [if_neg hz]
                  simp
            · rw [if_neg ht]
              simp
        · rw [if_neg hhost]
          simp
    · rw [if_neg hpre]
      simp

/-- A host other than the loopback address is rejected before the number is
looked at. -/
theorem eatControlPort_other_host (platform : Platform) (now : Nat) (port : Int)
    (host number : Str) (hcolon : colonChar ∉ host) (hhost : host ≠ kLoopback) :
    EatControlPort platform now
        (FileEntry.regular (kPortKey ++ (host ++ colonChar :: number))) port
      = { ready := false, port := port, time := 0 } := by
  have hpre : kPortKey.isPrefixOf (kPortKey ++ (host ++ colonChar :: number)) = true :=
    List.isPrefixOf_iff_prefix.mpr (List.prefix_append _ _)
  have hdrop : (kPortKey ++ (host ++ colonChar :: number)).drop kPortKey.length
      = host ++ colonChar :: number := List.drop_left _ _
  have hsplit := takeWhile_dropWhile_stop (fun c => c != colonChar) (colonChar :: number)
    (by intro x hx; simp at hx; rw [← hx]; decide) host
    (by
      intro c hc
      have : c ≠ colonChar := fun e => hcolon (e ▸ hc)
      simpa using this)
  unfold EatControlPort
  simp only [hpre, if_true, hdrop, hsplit.1, hsplit.2, hhost, if_false]

/-- After valid digits, anything but the line ending is rejected. -/
theorem eatControlPort_bad_end (platform : Platform) (now : Nat) (port : Int)
    (digits tail : Str) (hne : digits ≠ []) (hdig : ∀ c ∈ digits, c.isDigit = true)
    (hstop : ∀ x, tail.head? = some x → x.isDigit = false)
    (htail : tail ≠ lineEnding platform) :
    (EatControlPort platform now
        (FileEntry.regular ("PORT=127.0.0.1:".toList ++ digits ++ tail)) port).ready = false := by
  have hshape : "PORT=127.0.0.1:".toList ++ digits ++ tail
      = kPortKey ++ (kLoopback ++ colonChar :: (digits ++ tail)) := by
    simp [kPortKey, kLoopback, colonChar]
  have hpre : kPortKey.isPrefixOf (kPortKey ++ (kLoopback ++ colonChar :: (digits ++ tail)))
      = true := List.isPrefixOf_iff_prefix.mpr (List.prefix_append _ _)
  have hdrop : (kPortKey ++ (kLoopback ++ colonChar :: (digits ++ tail))).drop kPortKey.length
      = kLoopback ++ colonChar :: (digits ++ tail) := List.drop_left _ _
  have hhost := takeWhile_dropWhile_stop (fun c => c != colonChar)
    (colonChar :: (digits ++ tail))
    (by intro x hx; simp at hx; rw [← hx]; decide) kLoopback loopback_no_colon
  have hnum := takeWhile_dropWhile_stop Char.isDigit tail hstop digits hdig
  rw [hshape]
  unfold EatControlPort
  simp only [hpre, if_true, hdrop, hhost.1, hhost.2, hnum.1, hnum.2, hne, htail, if_false]

/-- C13. Port extraction: `EatControlPort` returns true exactly when the port
file is the single line `PORT=127.0.0.1:<p>` followed by the platform line
ending, with `<p>` a non-empty run of decimal digits whose value is in
1..65535; it then outputs that value and a non-zero timestamp
(`PORT=127.0.0.1:5566` and a newline gives 5566).  A host other than
`127.0.0.1` is rejected whatever follows the colon; after the digits anything
but the line ending (nothing, a truncated ending, trailing garbage) is rejected;
a digit run whose value exceeds 65535 is rejected with the output port 65536;
every rejection leaves the timestamp zero.  The clock never reads the null
time. -/
theorem port_extraction (platform : Platform) (now : Nat) (entry : FileEntry Str) (port : Int)
    (hnow : now ≠ 0) :
    ((EatControlPort platform now entry port).ready = true ↔
      ∃ digits, entry = FileEntry.regular (portLine platform digits) ∧
        digits ≠ [] ∧ (∀ c ∈ digits, c.isDigit = true) ∧
        1 ≤ decimalValue digits ∧ decimalValue digits ≤ 65535) ∧
    (∀ digits, digits ≠ [] → (∀ c ∈ digits, c.isDigit = true) →
      1 ≤ decimalValue digits → decimalValue digits ≤ 65535 →
      EatControlPort platform now (FileEntry.regular (portLine platform digits)) port
        = { ready := true, port := decimalValue digits, time := now }) ∧
    ((EatControlPort platform now entry port).ready = true →
      (EatControlPort platform now entry port).time ≠ 0) ∧
    ((EatControlPort platform now entry port).ready = false →
      (EatControlPort platform now entry port).time = 0) ∧
    (∀ host number, colonChar ∉ host → host ≠ "127.0.0.1".toList →
      EatControlPort platform now
          (FileEntry.regular ("PORT=".toList ++ (host ++ colonChar :: number))) port
        = { ready := false, port := port, time := 0 }) ∧
    (∀ digits tail, digits ≠ [] → (∀ c ∈ digits, c.isDigit = true) →
      (∀ x, tail.head? = some x → x.isDigit = false) → tail ≠ lineEnding platform →
      (EatControlPort platform now
          (FileEntry.regular ("PORT=127.0.0.1:".toList ++ digits ++ tail)) port).ready
        = false) ∧
    (∀ digits, digits ≠ [] → (∀ c ∈ digits, c.isDigit = true) → 65535 < decimalValue digits →
      EatControlPort platform now (FileEntry.regular (portLine platform digits)) port
        = { ready := false, port := 65536, time := 0 }) ∧
    EatControlPort Platform.posix now (FileEntry.regular normalControlPort) port
      = { ready := true, port := 5566, time := now } := by
  have haccept : ∀ digits, digits ≠ [] → (∀ c ∈ digits, c.isDigit = true) →
      1 ≤ decimalValue digits → decimalValue digits ≤ 65535 →
      EatControlPort platform now (FileEntry.regular (portLine platform digits)) port
        = { ready := true, port := decimalValue digits, time := now } := by
    intro digits hne hdig h1 h2
    rw [portLine_eq, eatControlPort_on_line platform now port digits hne hdig]
    have hbig : ¬ decimalValue digits > 65535 := by omega
    have hz : ¬ decimalValue digits = 0 := by omega
    rw [if_neg hbig, if_neg hz]
  refine ⟨⟨?_, ?_⟩, haccept, ?_, (eatControlPort_time platform now entry port).1, ?_, ?_, ?_, ?_⟩
  · intro h
    obtain ⟨digits, hentry, hne, hdig⟩ := eatControlPort_ready_shape platform now entry port h
    refine ⟨digits, ?_, hne, hdig, ?_⟩
    · rw [portLine_eq]
      exact hentry
    · rw [hentry, eatControlPort_on_line platform now port digits hne hdig] at h
      by_cases hbig : decimalValue digits > 65535
      · rw [if_pos hbig] at h
        simp at h
      · rw [if_neg hbig] at h
        by_cases hz : decimalValue digits = 0
        · rw [if_pos hz] at h
          simp at h
        · omega
  · rintro ⟨digits, hentry, hne, hdig, h1, h2⟩
    rw [hentry, haccept digits hne hdig h1 h2]
  · intro h
    rw [(eatControlPort_time platform now entry port).2 h]
    exact hnow
  · intro host number hcolon hhost
    exact eatControlPort_other_host platform now port host number hcolon hhost
  · intro digits tail hne hdig hstop htail
    exact eatControlPort_bad_end platform now port digits tail hne hdig hstop htail
  · intro digits hne hdig hbig
    rw [portLine_eq, eatControlPort_on_line platform now port digits hne hdig, if_pos hbig]
  · have h := eatControlPort_on_line Platform.posix now port "5566".toList (by decide)
      (by decide)
    have hv : decimalValue "5566".toList = 5566 := by decide
    rw [hv] at h
    exact h

/-- Witness for C13: the port file of the normal-port scenario, read at time 1
with the port unset. -/
theorem port_extraction_witness :
    (EatControlPort Platform.posix 1 (FileEntry.regular normalControlPort) (-1)).ready = true ∧
    (EatControlPort Platform.posix 1 (FileEntry.regular normalControlPort) (-1)).time ≠ 0 :=
  ⟨(port_extraction Platform.posix 1 (FileEntry.regular normalControlPort) (-1)
      (by decide)).1.mpr ⟨"5566".toList, rfl, by decide, by decide, by decide, by decide⟩,
   (port_extraction Platform.posix 1 (FileEntry.regular normalControlPort) (-1)
      (by decide)).2.2.1 rfl⟩

end Tor
